import Mathlib

/-!
Shallow embedding of `src/partition.rs` (rav1e): block/partition/transform
geometry tables, reference-frame slot classification, neighbor availability
(`has_tr` / `has_bl`), intra edge-buffer construction (`get_intra_edges`),
and the intra prediction dispatch (`predict_intra_inner`).

Rust `usize` indexing that can panic is modelled with `Option`
(`none` = the Rust code panics on that input).
-/

/-- Reference frame slot tags, `RefType` in the source (ordinals 0-8). -/
inductive RefType where
  | INTRA_FRAME
  | LAST_FRAME
  | LAST2_FRAME
  | LAST3_FRAME
  | GOLDEN_FRAME
  | BWDREF_FRAME
  | ALTREF2_FRAME
  | ALTREF_FRAME
  | NONE_FRAME
  deriving DecidableEq, Fintype

/-- Ordinal of a `RefType` (the explicit discriminants in the source). -/
def RefType.toUsize : RefType → Nat
  | .INTRA_FRAME => 0
  | .LAST_FRAME => 1
  | .LAST2_FRAME => 2
  | .LAST3_FRAME => 3
  | .GOLDEN_FRAME => 4
  | .BWDREF_FRAME => 5
  | .ALTREF2_FRAME => 6
  | .ALTREF_FRAME => 7
  | .NONE_FRAME => 8

/-- `RefType::to_index`: panics (here `none`) on `NONE_FRAME` and
`INTRA_FRAME`, otherwise `(self as usize) - 1`. -/
def RefType.to_index : RefType → Option Nat
  | .NONE_FRAME => none
  | .INTRA_FRAME => none
  | r => some (r.toUsize - 1)

/-- `RefType::is_fwd_ref`: `(self as usize) < 5`. -/
def RefType.is_fwd_ref (r : RefType) : Bool :=
  decide (r.toUsize < 5)

/-- `RefType::is_bwd_ref`: `(self as usize) >= 5`. -/
def RefType.is_bwd_ref (r : RefType) : Bool :=
  decide (5 ≤ r.toUsize)

/-- `PartitionType` in the source, 10 real variants plus the invalid marker. -/
inductive PartitionType where
  | PARTITION_NONE
  | PARTITION_HORZ
  | PARTITION_VERT
  | PARTITION_SPLIT
  | PARTITION_HORZ_A
  | PARTITION_HORZ_B
  | PARTITION_VERT_A
  | PARTITION_VERT_B
  | PARTITION_HORZ_4
  | PARTITION_VERT_4
  | PARTITION_INVALID
  deriving DecidableEq, Fintype

/-- Ordinal of a `PartitionType` (declaration order in the source). -/
def PartitionType.toUsize : PartitionType → Nat
  | .PARTITION_NONE => 0
  | .PARTITION_HORZ => 1
  | .PARTITION_VERT => 2
  | .PARTITION_SPLIT => 3
  | .PARTITION_HORZ_A => 4
  | .PARTITION_HORZ_B => 5
  | .PARTITION_VERT_A => 6
  | .PARTITION_VERT_B => 7
  | .PARTITION_HORZ_4 => 8
  | .PARTITION_VERT_4 => 9
  | .PARTITION_INVALID => 10

/-- `BlockSize` in the source, 22 real variants plus the invalid marker. -/
inductive BlockSize where
  | BLOCK_4X4
  | BLOCK_4X8
  | BLOCK_8X4
  | BLOCK_8X8
  | BLOCK_8X16
  | BLOCK_16X8
  | BLOCK_16X16
  | BLOCK_16X32
  | BLOCK_32X16
  | BLOCK_32X32
  | BLOCK_32X64
  | BLOCK_64X32
  | BLOCK_64X64
  | BLOCK_64X128
  | BLOCK_128X64
  | BLOCK_128X128
  | BLOCK_4X16
  | BLOCK_16X4
  | BLOCK_8X32
  | BLOCK_32X8
  | BLOCK_16X64
  | BLOCK_64X16
  | BLOCK_INVALID
  deriving DecidableEq, Fintype

/-- Ordinal of a `BlockSize` (declaration order in the source). -/
def BlockSize.toUsize : BlockSize → Nat
  | .BLOCK_4X4 => 0
  | .BLOCK_4X8 => 1
  | .BLOCK_8X4 => 2
  | .BLOCK_8X8 => 3
  | .BLOCK_8X16 => 4
  | .BLOCK_16X8 => 5
  | .BLOCK_16X16 => 6
  | .BLOCK_16X32 => 7
  | .BLOCK_32X16 => 8
  | .BLOCK_32X32 => 9
  | .BLOCK_32X64 => 10
  | .BLOCK_64X32 => 11
  | .BLOCK_64X64 => 12
  | .BLOCK_64X128 => 13
  | .BLOCK_128X64 => 14
  | .BLOCK_128X128 => 15
  | .BLOCK_4X16 => 16
  | .BLOCK_16X4 => 17
  | .BLOCK_8X32 => 18
  | .BLOCK_32X8 => 19
  | .BLOCK_16X64 => 20
  | .BLOCK_64X16 => 21
  | .BLOCK_INVALID => 22

/-- `BlockSize::BLOCK_SIZE_WIDTH_LOG2` (22 entries, indexed by ordinal). -/
def BLOCK_SIZE_WIDTH_LOG2 : List Nat :=
  [2, 2, 3, 3, 3, 4, 4, 4, 5, 5, 5, 6, 6, 6, 7, 7, 2, 4, 3, 5, 4, 6]

/-- `BlockSize::BLOCK_SIZE_HEIGHT_LOG2` (22 entries, indexed by ordinal). -/
def BLOCK_SIZE_HEIGHT_LOG2 : List Nat :=
  [2, 3, 2, 3, 4, 3, 4, 5, 4, 5, 6, 5, 6, 7, 6, 7, 4, 2, 5, 3, 6, 4]

/-- Modelled from the spec: `MI_SIZE_LOG2` (minimum-unit "mi" steps of 4
pixels, log2 = 2) lives in `context.rs`, which is not among the provided
sources; the spec fixes mi units at 4 pixels. -/
def MI_SIZE_LOG2 : Nat := 2

/-- `BlockSize::width_log2`: table lookup; `none` models the out-of-bounds
panic for `BLOCK_INVALID` (ordinal 22, table length 22). -/
def BlockSize.width_log2? (b : BlockSize) : Option Nat :=
  BLOCK_SIZE_WIDTH_LOG2.get? b.toUsize

/-- `BlockSize::height_log2`. -/
def BlockSize.height_log2? (b : BlockSize) : Option Nat :=
  BLOCK_SIZE_HEIGHT_LOG2.get? b.toUsize

/-- `BlockSize::width`: `1 << width_log2`. -/
def BlockSize.width? (b : BlockSize) : Option Nat :=
  b.width_log2?.map (1 <<< ·)

/-- `BlockSize::height`. -/
def BlockSize.height? (b : BlockSize) : Option Nat :=
  b.height_log2?.map (1 <<< ·)

/-- `BlockSize::width_mi`: `width >> MI_SIZE_LOG2`. -/
def BlockSize.width_mi? (b : BlockSize) : Option Nat :=
  b.width?.map (· >>> MI_SIZE_LOG2)

/-- `BlockSize::height_mi`. -/
def BlockSize.height_mi? (b : BlockSize) : Option Nat :=
  b.height?.map (· >>> MI_SIZE_LOG2)

/-- Pixel area of a block, `width * height`. -/
def BlockSize.area? (b : BlockSize) : Option Nat :=
  b.width?.bind fun w => b.height?.map (fun h => w * h)

/-- `BlockSize::from_width_and_height`; `none` models the `unreachable!`
panic on an unmapped pair. -/
def BlockSize.from_width_and_height (w h : Nat) : Option BlockSize :=
  match w, h with
  | 4, 4 => some .BLOCK_4X4
  | 4, 8 => some .BLOCK_4X8
  | 8, 4 => some .BLOCK_8X4
  | 8, 8 => some .BLOCK_8X8
  | 8, 16 => some .BLOCK_8X16
  | 16, 8 => some .BLOCK_16X8
  | 16, 16 => some .BLOCK_16X16
  | 16, 32 => some .BLOCK_16X32
  | 32, 16 => some .BLOCK_32X16
  | 32, 32 => some .BLOCK_32X32
  | 32, 64 => some .BLOCK_32X64
  | 64, 32 => some .BLOCK_64X32
  | 64, 64 => some .BLOCK_64X64
  | 64, 128 => some .BLOCK_64X128
  | 128, 64 => some .BLOCK_128X64
  | 128, 128 => some .BLOCK_128X128
  | 4, 16 => some .BLOCK_4X16
  | 16, 4 => some .BLOCK_16X4
  | 8, 32 => some .BLOCK_8X32
  | 32, 8 => some .BLOCK_32X8
  | 16, 64 => some .BLOCK_16X64
  | 64, 16 => some .BLOCK_64X16
  | _, _ => none

/-- `BlockSize::SUBSIZE_LOOKUP`: 10 rows (one per real partition type, in
ordinal order), 22 entries each (one per real block size, in ordinal
order), transcribed from the source. -/
def SUBSIZE_LOOKUP : List (List BlockSize) :=
  [ -- PARTITION_NONE
    [.BLOCK_4X4,
     .BLOCK_4X8, .BLOCK_8X4, .BLOCK_8X8,
     .BLOCK_8X16, .BLOCK_16X8, .BLOCK_16X16,
     .BLOCK_16X32, .BLOCK_32X16, .BLOCK_32X32,
     .BLOCK_32X64, .BLOCK_64X32, .BLOCK_64X64,
     .BLOCK_64X128, .BLOCK_128X64, .BLOCK_128X128,
     .BLOCK_4X16, .BLOCK_16X4, .BLOCK_8X32,
     .BLOCK_32X8, .BLOCK_16X64, .BLOCK_64X16],
    -- PARTITION_HORZ
    [.BLOCK_INVALID,
     .BLOCK_INVALID, .BLOCK_INVALID, .BLOCK_8X4,
     .BLOCK_INVALID, .BLOCK_INVALID, .BLOCK_16X8,
     .BLOCK_INVALID, .BLOCK_INVALID, .BLOCK_32X16,
     .BLOCK_INVALID, .BLOCK_INVALID, .BLOCK_64X32,
     .BLOCK_INVALID, .BLOCK_INVALID, .BLOCK_128X64,
     .BLOCK_INVALID, .BLOCK_INVALID, .BLOCK_INVALID,
     .BLOCK_INVALID, .BLOCK_INVALID, .BLOCK_INVALID],
    -- PARTITION_VERT
    [.BLOCK_INVALID,
     .BLOCK_INVALID, .BLOCK_INVALID, .BLOCK_4X8,
     .BLOCK_INVALID, .BLOCK_INVALID, .BLOCK_8X16,
     .BLOCK_INVALID, .BLOCK_INVALID, .BLOCK_16X32,
     .BLOCK_INVALID, .BLOCK_INVALID, .BLOCK_32X64,
     .BLOCK_INVALID, .BLOCK_INVALID, .BLOCK_64X128,
     .BLOCK_INVALID, .BLOCK_INVALID, .BLOCK_INVALID,
     .BLOCK_INVALID, .BLOCK_INVALID, .BLOCK_INVALID],
    -- PARTITION_SPLIT
    [.BLOCK_INVALID,
     .BLOCK_INVALID, .BLOCK_INVALID, .BLOCK_4X4,
     .BLOCK_INVALID, .BLOCK_INVALID, .BLOCK_8X8,
     .BLOCK_INVALID, .BLOCK_INVALID, .BLOCK_16X16,
     .BLOCK_INVALID, .BLOCK_INVALID, .BLOCK_32X32,
     .BLOCK_INVALID, .BLOCK_INVALID, .BLOCK_64X64,
     .BLOCK_INVALID, .BLOCK_INVALID, .BLOCK_INVALID,
     .BLOCK_INVALID, .BLOCK_INVALID, .BLOCK_INVALID],
    -- PARTITION_HORZ_A
    [.BLOCK_INVALID,
     .BLOCK_INVALID, .BLOCK_INVALID, .BLOCK_8X4,
     .BLOCK_INVALID, .BLOCK_INVALID, .BLOCK_16X8,
     .BLOCK_INVALID, .BLOCK_INVALID, .BLOCK_32X16,
     .BLOCK_INVALID, .BLOCK_INVALID, .BLOCK_64X32,
     .BLOCK_INVALID, .BLOCK_INVALID, .BLOCK_128X64,
     .BLOCK_INVALID, .BLOCK_INVALID, .BLOCK_INVALID,
     .BLOCK_INVALID, .BLOCK_INVALID, .BLOCK_INVALID],
    -- PARTITION_HORZ_B
    [.BLOCK_INVALID,
     .BLOCK_INVALID, .BLOCK_INVALID, .BLOCK_8X4,
     .BLOCK_INVALID, .BLOCK_INVALID, .BLOCK_16X8,
     .BLOCK_INVALID, .BLOCK_INVALID, .BLOCK_32X16,
     .BLOCK_INVALID, .BLOCK_INVALID, .BLOCK_64X32,
     .BLOCK_INVALID, .BLOCK_INVALID, .BLOCK_128X64,
     .BLOCK_INVALID, .BLOCK_INVALID, .BLOCK_INVALID,
     .BLOCK_INVALID, .BLOCK_INVALID, .BLOCK_INVALID],
    -- PARTITION_VERT_A
    [.BLOCK_INVALID,
     .BLOCK_INVALID, .BLOCK_INVALID, .BLOCK_4X8,
     .BLOCK_INVALID, .BLOCK_INVALID, .BLOCK_8X16,
     .BLOCK_INVALID, .BLOCK_INVALID, .BLOCK_16X32,
     .BLOCK_INVALID, .BLOCK_INVALID, .BLOCK_32X64,
     .BLOCK_INVALID, .BLOCK_INVALID, .BLOCK_64X128,
     .BLOCK_INVALID, .BLOCK_INVALID, .BLOCK_INVALID,
     .BLOCK_INVALID, .BLOCK_INVALID, .BLOCK_INVALID],
    -- PARTITION_VERT_B
    [.BLOCK_INVALID,
     .BLOCK_INVALID, .BLOCK_INVALID, .BLOCK_4X8,
     .BLOCK_INVALID, .BLOCK_INVALID, .BLOCK_8X16,
     .BLOCK_INVALID, .BLOCK_INVALID, .BLOCK_16X32,
     .BLOCK_INVALID, .BLOCK_INVALID, .BLOCK_32X64,
     .BLOCK_INVALID, .BLOCK_INVALID, .BLOCK_64X128,
     .BLOCK_INVALID, .BLOCK_INVALID, .BLOCK_INVALID,
     .BLOCK_INVALID, .BLOCK_INVALID, .BLOCK_INVALID],
    -- PARTITION_HORZ_4
    [.BLOCK_INVALID,
     .BLOCK_INVALID, .BLOCK_INVALID, .BLOCK_INVALID,
     .BLOCK_INVALID, .BLOCK_INVALID, .BLOCK_16X4,
     .BLOCK_INVALID, .BLOCK_INVALID, .BLOCK_32X8,
     .BLOCK_INVALID, .BLOCK_INVALID, .BLOCK_64X16,
     .BLOCK_INVALID, .BLOCK_INVALID, .BLOCK_INVALID,
     .BLOCK_INVALID, .BLOCK_INVALID, .BLOCK_INVALID,
     .BLOCK_INVALID, .BLOCK_INVALID, .BLOCK_INVALID],
    -- PARTITION_VERT_4
    [.BLOCK_INVALID,
     .BLOCK_INVALID, .BLOCK_INVALID, .BLOCK_INVALID,
     .BLOCK_INVALID, .BLOCK_INVALID, .BLOCK_4X16,
     .BLOCK_INVALID, .BLOCK_INVALID, .BLOCK_8X32,
     .BLOCK_INVALID, .BLOCK_INVALID, .BLOCK_16X64,
     .BLOCK_INVALID, .BLOCK_INVALID, .BLOCK_INVALID,
     .BLOCK_INVALID, .BLOCK_INVALID, .BLOCK_INVALID,
     .BLOCK_INVALID, .BLOCK_INVALID, .BLOCK_INVALID]]

/-- `BlockSize::subsize`: `SUBSIZE_LOOKUP[partition as usize][self as usize]`;
`none` models the out-of-bounds panic. -/
def BlockSize.subsize (b : BlockSize) (p : PartitionType) : Option BlockSize :=
  (SUBSIZE_LOOKUP.get? p.toUsize).bind fun row => row.get? b.toUsize

/-- `TxSize` in the source (5 square + 14 rectangular). -/
inductive TxSize where
  | TX_4X4
  | TX_8X8
  | TX_16X16
  | TX_32X32
  | TX_64X64
  | TX_4X8
  | TX_8X4
  | TX_8X16
  | TX_16X8
  | TX_16X32
  | TX_32X16
  | TX_32X64
  | TX_64X32
  | TX_4X16
  | TX_16X4
  | TX_8X32
  | TX_32X8
  | TX_16X64
  | TX_64X16
  deriving DecidableEq, Fintype

/-- `TxSize::width_log2`. -/
def TxSize.width_log2 : TxSize → Nat
  | .TX_4X4 | .TX_4X8 | .TX_4X16 => 2
  | .TX_8X8 | .TX_8X4 | .TX_8X16 | .TX_8X32 => 3
  | .TX_16X16 | .TX_16X8 | .TX_16X32 | .TX_16X4 | .TX_16X64 => 4
  | .TX_32X32 | .TX_32X16 | .TX_32X64 | .TX_32X8 => 5
  | .TX_64X64 | .TX_64X32 | .TX_64X16 => 6

/-- `TxSize::height_log2`. -/
def TxSize.height_log2 : TxSize → Nat
  | .TX_4X4 | .TX_8X4 | .TX_16X4 => 2
  | .TX_8X8 | .TX_4X8 | .TX_16X8 | .TX_32X8 => 3
  | .TX_16X16 | .TX_8X16 | .TX_32X16 | .TX_4X16 | .TX_64X16 => 4
  | .TX_32X32 | .TX_16X32 | .TX_64X32 | .TX_8X32 => 5
  | .TX_64X64 | .TX_32X64 | .TX_16X64 => 6

/-- `TxSize::width`: `1 << width_log2`. -/
def TxSize.width (t : TxSize) : Nat := 1 <<< t.width_log2

/-- `TxSize::height`. -/
def TxSize.height (t : TxSize) : Nat := 1 <<< t.height_log2

/-- `TxSize::sqr_up`. -/
def TxSize.sqr_up : TxSize → TxSize
  | .TX_4X4 => .TX_4X4
  | .TX_8X8 | .TX_4X8 | .TX_8X4 => .TX_8X8
  | .TX_16X16 | .TX_8X16 | .TX_16X8 | .TX_4X16 | .TX_16X4 => .TX_16X16
  | .TX_32X32 | .TX_16X32 | .TX_32X16 | .TX_8X32 | .TX_32X8 => .TX_32X32
  | .TX_64X64 | .TX_32X64 | .TX_64X32 | .TX_16X64 | .TX_64X16 => .TX_64X64

/-- Modelled from the spec: `BlockOffset` (a block position in 4-pixel "mi"
units) is declared in `context.rs`, which is not among the provided sources. -/
structure BlockOffset where
  x : Nat
  y : Nat

/-- Modelled from the spec: `LOCAL_BLOCK_MASK` from `context.rs` masks a
block coordinate to the span of one 64x64 superblock in 4-pixel units
(16 positions), so the mask is 15. -/
def LOCAL_BLOCK_MASK : Nat := 15

/-- `BLOCK_64X64.width_mi()`: the superblock size in 4-pixel units, used as
`sb_mi_size` in `has_tr` / `has_bl`. -/
def sb_mi_size : Nat := 16

/-- The `while bs < sb_mi_size` loop body of `has_tr`, with fuel.  The loop
doubles `bs` each iteration and exits once `bs >= 16` or on either `break`,
so it runs at most 5 iterations from any start (`bs = 0` breaks at once
since `mask_col &&& 0 = 0`); fuel 16 is never exhausted. -/
def hasTrLoop : Nat → Nat → Nat → Nat → Bool → Bool
  | 0, _, _, _, acc => acc
  | fuel + 1, mask_col, mask_row, bs, acc =>
    if bs < sb_mi_size then
      if mask_col &&& bs ≠ 0 then
        if mask_col &&& (2 * bs) ≠ 0 ∧ mask_row &&& (2 * bs) ≠ 0 then
          false
        else
          hasTrLoop fuel mask_col mask_row (2 * bs) acc
      else
        acc
    else
      acc

/-- The `while 2 * bs < sb_mi_size` loop body of `has_bl`, with fuel (same
bound argument as for `hasTrLoop`; `bs = 0` hits the inner `break` at once). -/
def hasBlLoop : Nat → Nat → Nat → Nat → Bool → Bool
  | 0, _, _, _, acc => acc
  | fuel + 1, mask_col, mask_row, bs, acc =>
    if 2 * bs < sb_mi_size then
      if mask_col &&& bs = 0 then
        if mask_col &&& (2 * bs) = 0 ∧ mask_row &&& (2 * bs) = 0 then
          true
        else
          hasBlLoop fuel mask_col mask_row (2 * bs) acc
      else
        acc
    else
      acc

/-- Body of `has_tr` once the block's width/height in mi units are known. -/
def hasTrCore (x y target_n4_w target_n4_h : Nat) : Bool :=
  let mask_row := y &&& LOCAL_BLOCK_MASK
  let mask_col := x &&& LOCAL_BLOCK_MASK
  let bs := max target_n4_w target_n4_h
  if sb_mi_size < bs then
    false
  else
    let r0 := !decide ((mask_row &&& bs ≠ 0) ∧ (mask_col &&& bs ≠ 0))
    let r1 := hasTrLoop 16 mask_col mask_row bs r0
    let r2 := if target_n4_w < target_n4_h ∧ x &&& target_n4_w = 0 then true else r1
    if target_n4_h < target_n4_w ∧ y &&& target_n4_h ≠ 0 then false else r2

/-- `has_tr(bo, bsize)`; `none` models the panic on `BLOCK_INVALID`
(whose mi dimensions are an out-of-bounds table read). -/
def has_tr (bo : BlockOffset) (bsize : BlockSize) : Option Bool :=
  match bsize.width_mi?, bsize.height_mi? with
  | some w, some h => some (hasTrCore bo.x bo.y w h)
  | _, _ => none

/-- Body of `has_bl` once the block's width/height in mi units are known. -/
def hasBlCore (x y target_n4_w target_n4_h : Nat) : Bool :=
  let mask_row := y &&& LOCAL_BLOCK_MASK
  let mask_col := x &&& LOCAL_BLOCK_MASK
  let bs := max target_n4_w target_n4_h
  if sb_mi_size < bs then
    false
  else
    let r0 := decide ((mask_row &&& bs = 0) ∧ (mask_col &&& bs = 0) ∧ bs < sb_mi_size)
    let r1 := hasBlLoop 16 mask_col mask_row bs r0
    let r2 := if target_n4_w < target_n4_h ∧ x &&& target_n4_w ≠ 0 then false else r1
    if target_n4_h < target_n4_w ∧ y &&& target_n4_h = 0 then true else r2

/-- `has_bl(bo, bsize)`; `none` models the panic on `BLOCK_INVALID`. -/
def has_bl (bo : BlockOffset) (bsize : BlockSize) : Option Bool :=
  match bsize.width_mi?, bsize.height_mi? with
  | some w, some h => some (hasBlCore bo.x bo.y w h)
  | _, _ => none

/-- `PredictionMode` in the source (intra portion plus inter tags). -/
inductive PredictionMode where
  | DC_PRED
  | V_PRED
  | H_PRED
  | D45_PRED
  | D135_PRED
  | D117_PRED
  | D153_PRED
  | D207_PRED
  | D63_PRED
  | SMOOTH_PRED
  | SMOOTH_V_PRED
  | SMOOTH_H_PRED
  | PAETH_PRED
  | UV_CFL_PRED
  | NEARESTMV
  | NEAR0MV
  | NEAR1MV
  | NEAR2MV
  | GLOBALMV
  | NEWMV
  | NEAREST_NEARESTMV
  | NEAR_NEARMV
  | NEAREST_NEWMV
  | NEW_NEARESTMV
  | NEAR_NEWMV
  | NEW_NEARMV
  | GLOBAL_GLOBALMV
  | NEW_NEWMV
  deriving DecidableEq, Fintype

/-- Modelled from the spec: `MAX_TX_SIZE` from `predict.rs` (not among the
provided sources) is the largest supported transform dimension, 64. -/
def MAX_TX_SIZE : Nat := 64

/-- The edge buffer of `get_intra_edges`: `4 * MAX_TX_SIZE + 1` samples,
`none` marking a slot the function never wrote (the Rust buffer is
returned uninitialized there).  Layout as in the source: indices
`[0, 2*MAX_TX_SIZE)` are the left run (bottom-to-top, right-aligned),
index `2*MAX_TX_SIZE` is the top-left sample, and indices from
`2*MAX_TX_SIZE + 1` are the above run. -/
def EdgeBuf : Type := Nat → Option Nat

/-- Write `len` samples starting at `start`: slot `start + i` gets `f i`. -/
def writeRange (buf : EdgeBuf) (start len : Nat) (f : Nat → Nat) : EdgeBuf :=
  fun j => if start ≤ j ∧ j < start + len then some (f (j - start)) else buf j

/-- Fill slots in `[start, stop)` with the (possibly unwritten) sample `v`. -/
def fillRange (buf : EdgeBuf) (start stop : Nat) (v : Option Nat) : EdgeBuf :=
  fun j => if start ≤ j ∧ j < stop then v else buf j

/-- The per-mode need flags of `get_intra_edges`
(needs_left, needs_topleft, needs_top, needs_topright, needs_bottomleft),
including the PAETH degeneration at the plane origin/edges. -/
def needsFlags (optMode : Option PredictionMode) (x y : Nat) :
    Bool × Bool × Bool × Bool × Bool :=
  match optMode with
  | none => (true, true, true, true, true)
  | some mode0 =>
    let mode := match mode0 with
      | .PAETH_PRED =>
        match x, y with
        | 0, 0 => PredictionMode.DC_PRED
        | _, 0 => PredictionMode.H_PRED
        | 0, _ => PredictionMode.V_PRED
        | _, _ => PredictionMode.PAETH_PRED
      | _ => mode0
    let dc_or_cfl := mode = .DC_PRED ∨ mode = .UV_CFL_PRED
    (decide (mode ≠ .V_PRED ∧ (¬dc_or_cfl ∨ x ≠ 0) ∧
       ¬(mode = .D45_PRED ∨ mode = .D63_PRED)),
     decide (mode = .PAETH_PRED ∨ mode = .D117_PRED ∨
       mode = .D135_PRED ∨ mode = .D153_PRED),
     decide (mode ≠ .H_PRED ∧ (¬dc_or_cfl ∨ y ≠ 0)),
     decide (mode = .D45_PRED ∨ mode = .D63_PRED),
     decide (mode = .D207_PRED))

/-- `get_intra_edges(dst, po, tx_size, bit_depth, opt_mode)`.  The plane is
abstracted as the pixel function `dst row col` over the region's valid
rectangle `rectW x rectH` with chroma decimation `xdec`/`ydec`; `(x, y)`
is `po`.  Returns `none` when the Rust code would panic (an unmapped
block-size pair or `has_tr`/`has_bl` on `BLOCK_INVALID`); otherwise the
resulting edge buffer, with `none` entries for slots never written. -/
def get_intra_edges (dst : Nat → Nat → Nat) (rectW rectH : Nat)
    (xdec ydec : Nat) (x y : Nat) (tx_size : TxSize) (bit_depth : Nat)
    (optMode : Option PredictionMode) : Option EdgeBuf :=
  let base := 128 <<< (bit_depth - 8)
  let w := tx_size.width
  let h := tx_size.height
  let (needs_left, needs_topleft, needs_top, needs_topright, needs_bottomleft) :=
    needsFlags optMode x y
  let buf : EdgeBuf := fun _ => none
  -- Needs left
  let buf :=
    if needs_left then
      if x ≠ 0 then
        writeRange buf (2 * MAX_TX_SIZE - h) h (fun i => dst (y + h - 1 - i) (x - 1))
      else
        let val := if y ≠ 0 then dst (y - 1) 0 else base + 1
        writeRange buf (2 * MAX_TX_SIZE - h) h (fun _ => val)
    else buf
  -- Needs top-left
  let buf :=
    if needs_topleft then
      let v := match x, y with
        | 0, 0 => base
        | _, 0 => dst 0 (x - 1)
        | 0, _ => dst (y - 1) 0
        | _, _ => dst (y - 1) (x - 1)
      fun j => if j = 2 * MAX_TX_SIZE then some v else buf j
    else buf
  -- Needs top
  let buf :=
    if needs_top then
      if y ≠ 0 then
        writeRange buf (2 * MAX_TX_SIZE + 1) w (fun i => dst (y - 1) (x + i))
      else
        let val := if x ≠ 0 then dst 0 (x - 1) else base - 1
        writeRange buf (2 * MAX_TX_SIZE + 1) w (fun _ => val)
    else buf
  -- Needs top right
  let afterTr : Option EdgeBuf :=
    if needs_topright then
      match BlockSize.from_width_and_height (w <<< xdec) (h <<< ydec) with
      | none => none
      | some bsize =>
        match has_tr ⟨x >>> (2 - xdec), y >>> (2 - ydec)⟩ bsize with
        | none => none
        | some tr =>
          let num_avail := if y ≠ 0 ∧ tr then min w (rectW - x - w) else 0
          let buf :=
            if 0 < num_avail then
              writeRange buf (2 * MAX_TX_SIZE + 1 + w) num_avail
                (fun i => dst (y - 1) (x + w + i))
            else buf
          let buf :=
            if num_avail < h then
              let val := buf (2 * MAX_TX_SIZE + 1 + w + num_avail - 1)
              fillRange buf (2 * MAX_TX_SIZE + 1 + w + num_avail)
                (2 * MAX_TX_SIZE + 1 + w + h) val
            else buf
          some buf
    else some buf
  match afterTr with
  | none => none
  | some buf =>
    -- Needs bottom left
    if needs_bottomleft then
      match BlockSize.from_width_and_height (w <<< xdec) (h <<< ydec) with
      | none => none
      | some bsize =>
        match has_bl ⟨x >>> (2 - xdec), y >>> (2 - ydec)⟩ bsize with
        | none => none
        | some bl =>
          let num_avail := if x ≠ 0 ∧ bl then min h (rectH - y - h) else 0
          let buf :=
            if 0 < num_avail then
              writeRange buf (2 * MAX_TX_SIZE - h - num_avail) num_avail
                (fun i => dst (y + h + (num_avail - 1 - i)) (x - 1))
            else buf
          let buf :=
            if num_avail < w then
              let val := buf (2 * MAX_TX_SIZE - h - num_avail)
              fillRange buf (2 * MAX_TX_SIZE - h - w)
                (2 * MAX_TX_SIZE - h - num_avail) val
            else buf
          some buf
    else some buf

/-- The size-specialized kernel entry points a `predict_intra_inner` call
dispatches to, with the arguments the claims are about (the fixed angle
for the directional kernel). -/
inductive IntraKernelCall where
  | pred_dc_128
  | pred_dc_left
  | pred_dc_top
  | pred_dc
  | pred_cfl_128
  | pred_cfl_left
  | pred_cfl_top
  | pred_cfl
  | pred_h
  | pred_v
  | pred_paeth
  | pred_smooth
  | pred_smooth_h
  | pred_smooth_v
  | pred_directional (angle : Nat)
  | unhandled_mode
  deriving DecidableEq

/-- The mode resolution and kernel dispatch of `predict_intra_inner`:
`(x, y)` is the tile-relative position computed from the destination
rectangle, `alpha` the CFL alpha.  Returns which kernel the match invokes
and, for the directional kernel, the fixed angle argument. -/
def predict_intra_inner_dispatch (self : PredictionMode) (x y : Nat)
    (alpha : Int) : IntraKernelCall :=
  let mode := match self with
    | .PAETH_PRED =>
      match x, y with
      | 0, 0 => PredictionMode.DC_PRED
      | _, 0 => PredictionMode.H_PRED
      | 0, _ => PredictionMode.V_PRED
      | _, _ => PredictionMode.PAETH_PRED
    | .UV_CFL_PRED => if alpha = 0 then PredictionMode.DC_PRED else self
    | _ => self
  match mode with
  | .DC_PRED =>
    match x, y with
    | 0, 0 => IntraKernelCall.pred_dc_128
    | _, 0 => IntraKernelCall.pred_dc_left
    | 0, _ => IntraKernelCall.pred_dc_top
    | _, _ => IntraKernelCall.pred_dc
  | .UV_CFL_PRED =>
    match x, y with
    | 0, 0 => IntraKernelCall.pred_cfl_128
    | _, 0 => IntraKernelCall.pred_cfl_left
    | 0, _ => IntraKernelCall.pred_cfl_top
    | _, _ => IntraKernelCall.pred_cfl
  | .H_PRED => IntraKernelCall.pred_h
  | .V_PRED => IntraKernelCall.pred_v
  | .PAETH_PRED => IntraKernelCall.pred_paeth
  | .SMOOTH_PRED => IntraKernelCall.pred_smooth
  | .SMOOTH_H_PRED => IntraKernelCall.pred_smooth_h
  | .SMOOTH_V_PRED => IntraKernelCall.pred_smooth_v
  | .D45_PRED => IntraKernelCall.pred_directional 45
  | .D135_PRED => IntraKernelCall.pred_directional 135
  | .D117_PRED => IntraKernelCall.pred_directional 113
  | .D153_PRED => IntraKernelCall.pred_directional 157
  | .D207_PRED => IntraKernelCall.pred_directional 203
  | .D63_PRED => IntraKernelCall.pred_directional 67
  | _ => IntraKernelCall.unhandled_mode

/-- Area divisors the claim admits for each partition type: the subsize
keeps the whole area for PARTITION_NONE, half of it for HORZ/VERT and the
A/B splits, a quarter for SPLIT, and one of a half, quarter, or eighth for
the 4-way strip splits. -/
def allowed_divisors : PartitionType → List Nat
  | .PARTITION_NONE => [1]
  | .PARTITION_HORZ | .PARTITION_VERT => [2]
  | .PARTITION_HORZ_A | .PARTITION_HORZ_B
  | .PARTITION_VERT_A | .PARTITION_VERT_B => [2]
  | .PARTITION_SPLIT => [4]
  | .PARTITION_HORZ_4 | .PARTITION_VERT_4 => [2, 4, 8]
  | .PARTITION_INVALID => []

/-- Reduce a has_tr call to its core once the mi dimensions are known. -/
theorem has_tr_mi (bo : BlockOffset) (b : BlockSize) (w h : Nat)
    (hw : b.width_mi? = some w) (hh : b.height_mi? = some h) :
    has_tr bo b = some (hasTrCore bo.x bo.y w h) := by
  unfold has_tr
  rw [hw, hh]

/-- Reduce a has_bl call to its core once the mi dimensions are known. -/
theorem has_bl_mi (bo : BlockOffset) (b : BlockSize) (w h : Nat)
    (hw : b.width_mi? = some w) (hh : b.height_mi? = some h) :
    has_bl bo b = some (hasBlCore bo.x bo.y w h) := by
  unfold has_bl
  rw [hw, hh]

/-- C1: for every real PartitionType and real BlockSize, subsize is defined
(no panic) and yields either BLOCK_INVALID or a valid size whose area is
the parent's area divided by the fraction the partition admits. -/
theorem C1_subsize_area : ∀ (p : PartitionType) (b : BlockSize),
    p ≠ .PARTITION_INVALID → b ≠ .BLOCK_INVALID →
    (b.subsize p).isSome = true ∧
    ∀ s, b.subsize p = some s →
      s = .BLOCK_INVALID ∨
      (allowed_divisors p).any
        (fun k => (s.area?).map (· * k) == b.area?) = true := by
  decide

/-- Witness for C1 at PARTITION_HORZ and BLOCK_8X8 (subsize BLOCK_8X4). -/
theorem C1_subsize_area_witness :
    (BlockSize.BLOCK_8X8.subsize .PARTITION_HORZ).isSome = true ∧
    (BlockSize.BLOCK_8X4 = .BLOCK_INVALID ∨
      (allowed_divisors .PARTITION_HORZ).any
        (fun k => (BlockSize.BLOCK_8X4.area?).map (· * k) ==
          BlockSize.BLOCK_8X8.area?) = true) :=
  ⟨(C1_subsize_area .PARTITION_HORZ .BLOCK_8X8 (by decide) (by decide)).1,
   (C1_subsize_area .PARTITION_HORZ .BLOCK_8X8 (by decide) (by decide)).2
     .BLOCK_8X4 (by decide)⟩

/-- C2 counterexample: at the superblock origin with the smallest size,
has_tr and has_bl do NOT both return false (both are true). -/
theorem C2_counterexample :
    ¬(has_tr ⟨0, 0⟩ .BLOCK_4X4 = some false ∧
      has_bl ⟨0, 0⟩ .BLOCK_4X4 = some false) := by
  decide

/-- C2 (amended): for a block at the superblock origin with the smallest
block size, has_tr returns true and has_bl returns true. -/
theorem C2_origin_availability :
    has_tr ⟨0, 0⟩ .BLOCK_4X4 = some true ∧
    has_bl ⟨0, 0⟩ .BLOCK_4X4 = some true := by
  decide

/-- C3: for the smallest square size, has_tr is true at superblock-local
(0,0) and false at the bottom-right-most block position (15,15) of the
64x64 superblock. -/
theorem C3_square_corners :
    has_tr ⟨0, 0⟩ .BLOCK_4X4 = some true ∧
    has_tr ⟨15, 15⟩ .BLOCK_4X4 = some false := by
  decide

/-- C4 counterexample: BLOCK_64X128 is tall (16 < 32 mi units) and at
offset (0,0) lies at the left edge of its footprint, yet has_tr returns
false (the early return for blocks larger than the superblock fires
before the override). -/
theorem C4_counterexample :
    BlockSize.BLOCK_64X128.width_mi? = some 16 ∧
    BlockSize.BLOCK_64X128.height_mi? = some 32 ∧
    (0 : Nat) &&& 16 = 0 ∧
    has_tr ⟨0, 0⟩ .BLOCK_64X128 = some false := by
  decide

/-- C4 (amended): the four deterministic override rules hold, with the two
"always available" rules restricted to blocks no larger than the 64x64
superblock (for larger blocks the early return yields false instead). -/
theorem C4_overrides (x y : Nat) (b : BlockSize) (w h : Nat)
    (hw : b.width_mi? = some w) (hh : b.height_mi? = some h) :
    ((w < h ∧ x &&& w = 0 ∧ max w h ≤ sb_mi_size) →
      has_tr ⟨x, y⟩ b = some true) ∧
    ((h < w ∧ y &&& h ≠ 0) → has_tr ⟨x, y⟩ b = some false) ∧
    ((w < h ∧ x &&& w ≠ 0) → has_bl ⟨x, y⟩ b = some false) ∧
    ((h < w ∧ y &&& h = 0 ∧ max w h ≤ sb_mi_size) →
      has_bl ⟨x, y⟩ b = some true) := by
  refine ⟨?_, ?_, ?_, ?_⟩
  · rintro ⟨h1, h2, h3⟩
    rw [has_tr_mi ⟨x, y⟩ b w h hw hh]
    simp only [hasTrCore]
    rw [if_neg (by omega), if_neg (by rintro ⟨c, -⟩; omega), if_pos ⟨h1, h2⟩]
  · rintro ⟨h1, h2⟩
    rw [has_tr_mi ⟨x, y⟩ b w h hw hh]
    simp only [hasTrCore]
    by_cases hbs : sb_mi_size < max w h
    · rw [if_pos hbs]
    · rw [if_neg hbs, if_pos ⟨h1, h2⟩]
  · rintro ⟨h1, h2⟩
    rw [has_bl_mi ⟨x, y⟩ b w h hw hh]
    simp only [hasBlCore]
    by_cases hbs : sb_mi_size < max w h
    · rw [if_pos hbs]
    · rw [if_neg hbs, if_neg (by rintro ⟨c, -⟩; omega), if_pos ⟨h1, h2⟩]
  · rintro ⟨h1, h2, h3⟩
    rw [has_bl_mi ⟨x, y⟩ b w h hw hh]
    simp only [hasBlCore]
    rw [if_neg (by omega), if_pos ⟨h1, h2⟩]

/-- Witness for C4 exercising all four override rules at concrete inputs. -/
theorem C4_overrides_witness :
    has_tr ⟨0, 0⟩ .BLOCK_4X8 = some true ∧
    has_tr ⟨0, 1⟩ .BLOCK_8X4 = some false ∧
    has_bl ⟨1, 0⟩ .BLOCK_4X8 = some false ∧
    has_bl ⟨0, 0⟩ .BLOCK_8X4 = some true :=
  ⟨(C4_overrides 0 0 .BLOCK_4X8 1 2 (by decide) (by decide)).1 (by decide),
   (C4_overrides 0 1 .BLOCK_8X4 2 1 (by decide) (by decide)).2.1 (by decide),
   (C4_overrides 1 0 .BLOCK_4X8 1 2 (by decide) (by decide)).2.2.1 (by decide),
   (C4_overrides 0 0 .BLOCK_8X4 2 1 (by decide) (by decide)).2.2.2 (by decide)⟩

/-- C5 counterexample: D135_PRED invokes the directional kernel with angle
135, not 157 as the claim's respective pairing demands. -/
theorem C5_counterexample :
    predict_intra_inner_dispatch .D135_PRED 1 1 1 =
      IntraKernelCall.pred_directional 135 ∧
    IntraKernelCall.pred_directional 135 ≠
      IntraKernelCall.pred_directional 157 := by
  decide

/-- C5 (amended): the directional kernel angles are 45, 67, 113, 135, 157
and 203 for D45, D63, D117, D135, D153 and D207 respectively, at every
position and alpha. -/
theorem C5_directional_angles : ∀ (x y : Nat) (alpha : Int),
    predict_intra_inner_dispatch .D45_PRED x y alpha =
      IntraKernelCall.pred_directional 45 ∧
    predict_intra_inner_dispatch .D63_PRED x y alpha =
      IntraKernelCall.pred_directional 67 ∧
    predict_intra_inner_dispatch .D117_PRED x y alpha =
      IntraKernelCall.pred_directional 113 ∧
    predict_intra_inner_dispatch .D135_PRED x y alpha =
      IntraKernelCall.pred_directional 135 ∧
    predict_intra_inner_dispatch .D153_PRED x y alpha =
      IntraKernelCall.pred_directional 157 ∧
    predict_intra_inner_dispatch .D207_PRED x y alpha =
      IntraKernelCall.pred_directional 203 :=
  fun _ _ _ => ⟨rfl, rfl, rfl, rfl, rfl, rfl⟩

set_option maxRecDepth 4000 in
/-- C6 counterexample: at plane position (0,0) with DC_PRED (TX_4X4,
bit depth 8, zero plane), the left-run slot 2*MAX_TX_SIZE - 1 is left
unwritten (not the claimed base + 1 = 129), and in fact no slot of the
edge buffer is written at all. -/
theorem C6_counterexample :
    (get_intra_edges (fun _ _ => 0) 64 64 0 0 0 0 .TX_4X4 8
      (some .DC_PRED)).map (fun buf => buf (2 * MAX_TX_SIZE - 1)) =
      some none ∧
    (get_intra_edges (fun _ _ => 0) 64 64 0 0 0 0 .TX_4X4 8
      (some .DC_PRED)).map (fun buf =>
        (List.range (4 * MAX_TX_SIZE + 1)).all fun i => (buf i).isNone) =
      some true := by
  decide

/-- C6 (amended): for every transform size, bit depth and plane, calling
get_intra_edges at (0,0) with DC_PRED computes every need flag as false
and so returns the edge buffer with no sample written: the result is
independent of the plane contents, but is uninitialized rather than
filled with the bit-depth default values. -/
theorem C6_origin_dc_unwritten : ∀ (dst : Nat → Nat → Nat)
    (rectW rectH xdec ydec : Nat) (tx_size : TxSize) (bit_depth : Nat),
    get_intra_edges dst rectW rectH xdec ydec 0 0 tx_size bit_depth
      (some .DC_PRED) = some (fun _ => none) :=
  fun _ _ _ _ _ _ _ => rfl

/-- C7: sqr_up is idempotent, always lands on a square transform size, and
that square's dimension is at least the original width and height. -/
theorem C7_sqr_up : ∀ x : TxSize,
    x.sqr_up.sqr_up = x.sqr_up ∧
    x.sqr_up.width_log2 = x.sqr_up.height_log2 ∧
    x.width ≤ x.sqr_up.width ∧ x.height ≤ x.sqr_up.width := by
  decide

/-- C8: to_index panics exactly on INTRA_FRAME and NONE_FRAME; on the 7
inter slots it is the ordinal minus 1, a dense index below 7; is_fwd_ref
tests ordinal < 5, and the forward inter slots are exactly LAST, LAST2,
LAST3 and GOLDEN. -/
theorem C8_to_index : ∀ r : RefType,
    (r.to_index = none ↔ r = .INTRA_FRAME ∨ r = .NONE_FRAME) ∧
    (¬(r = .INTRA_FRAME ∨ r = .NONE_FRAME) →
      r.to_index = some (r.toUsize - 1) ∧ r.toUsize - 1 < 7) ∧
    (r.is_fwd_ref = true ↔ r.toUsize < 5) ∧
    ((r.is_fwd_ref = true ∧ ¬(r = .INTRA_FRAME ∨ r = .NONE_FRAME)) ↔
      (r = .LAST_FRAME ∨ r = .LAST2_FRAME ∨ r = .LAST3_FRAME ∨
        r = .GOLDEN_FRAME)) := by
  decide

/-- Witness for C8 at LAST_FRAME. -/
theorem C8_to_index_witness :
    RefType.LAST_FRAME.to_index = some (RefType.LAST_FRAME.toUsize - 1) ∧
    RefType.LAST_FRAME.toUsize - 1 < 7 :=
  (C8_to_index .LAST_FRAME).2.1 (by decide)

/-- C9: subsize fails fatally (models as none) exactly when the partition
is PARTITION_INVALID or the block is BLOCK_INVALID; it is total over the
10 real partitions and 22 real sizes. -/
theorem C9_subsize_panics : ∀ (p : PartitionType) (b : BlockSize),
    b.subsize p = none ↔ (p = .PARTITION_INVALID ∨ b = .BLOCK_INVALID) := by
  decide

/-- C10: every RefType satisfies exactly one of is_fwd_ref / is_bwd_ref, and
in particular INTRA_FRAME counts as forward and NONE_FRAME as backward. -/
theorem C10_fwd_bwd_split :
    (∀ r : RefType, r.is_fwd_ref = true ↔ ¬(r.is_bwd_ref = true)) ∧
    RefType.INTRA_FRAME.is_fwd_ref = true ∧
    RefType.NONE_FRAME.is_bwd_ref = true := by
  decide
